import Mathlib

/-!
Verification of the orders HTTP service in `api/app.py`.

The service is a thin request/response layer over one in-memory dictionary
`ORDERS : Dict[str, dict]`.  We embed it shallowly:

* the store is an association list `Store := List (String × Order)` with no
  duplicate keys, matching a Python dict; dict assignment `ORDERS[k] = v` is
  embedded as `storeSet` (replace the entry in place when the key exists,
  append at the end otherwise, exactly the visible behaviour of a dict) and
  `ORDERS.get(k)` as `List.lookup`;
* each handler becomes a pure function that also takes the values the real
  handler obtains from its environment — the fresh identifier produced by
  `str(uuid4())` and the timestamp string produced by
  `datetime.utcnow().isoformat() + "Z"` — as explicit arguments, and returns
  its response together with the store it leaves behind;
* pydantic validation of the `OrderCreate` body (required `customer_email`
  and `product_id`, `quantity : int` with `ge=1, default=1`) and the
  equivalent `Query(...)` validation of the GET-based create are embedded as
  functions from raw optional fields to `Except ValidationError _`;
* the FastAPI route table is embedded in registration order, with dispatch
  picking the first route whose method and pattern match the request.
-/

/-- An order record, the value stored in `ORDERS` and returned by the
handlers (the `doc` dict of `create_order`, shaped like `OrderOut`). -/
structure Order where
  id : String
  status : String
  created_at : String
  customer_email : String
  product_id : String
  quantity : Int
deriving DecidableEq, Repr

/-- The in-memory store `ORDERS : Dict[str, dict]`, as an association list
from identifier to order. -/
abbrev Store := List (String × Order)

/-- Python dict lookup `ORDERS.get(k)`: the value at key `k`, or `None`. -/
def storeGet : Store → String → Option Order
  | [], _ => none
  | p :: t, k => if p.1 = k then some p.2 else storeGet t k

/-- Python dict assignment `ORDERS[k] = v`: replace the entry in place when
the key is present, append a new entry at the end otherwise. -/
def storeSet : Store → String → Order → Store
  | [], k, v => [(k, v)]
  | p :: t, k, v => if p.1 = k then (k, v) :: t else p :: storeSet t k v

/-- A validated create payload: the `OrderCreate` pydantic model
(`customer_email`, `product_id`, `quantity` with `ge=1, default=1`). -/
structure OrderCreate where
  customer_email : String
  product_id : String
  quantity : Int
deriving DecidableEq, Repr

/-- A raw create request before validation: each field may be absent. -/
structure RawOrderCreate where
  customer_email : Option String
  product_id : Option String
  quantity : Option Int
deriving DecidableEq, Repr

/-- A validation failure (HTTP 422), produced by pydantic or the query-param
parser before the handler body runs: a required field is missing, or a field
violates a constraint. -/
inductive ValidationError where
  | missingField (field : String)
  | constraintViolation (field : String)
deriving DecidableEq, Repr

/-- Pydantic validation of the `OrderCreate` model (app.py lines 34-37):
`customer_email` and `product_id` are required (`Field(...)`), `quantity`
has constraint `ge=1` and default `1` (`Field(ge=1, default=1)`). -/
def OrderCreate.validate (r : RawOrderCreate) : Except ValidationError OrderCreate :=
  match r.customer_email with
  | none => .error (.missingField "customer_email")
  | some ce =>
    match r.product_id with
    | none => .error (.missingField "product_id")
    | some pid =>
      match r.quantity with
      | none => .ok ⟨ce, pid, 1⟩
      | some q => if 1 ≤ q then .ok ⟨ce, pid, q⟩ else .error (.constraintViolation "quantity")

/-- The handler body of `POST /orders` (`create_order`, app.py lines 66-80):
build the `doc` dict with status `"created"` from the validated payload, the
fresh uuid and the current timestamp, store it under the fresh id, return it. -/
def create_order (payload : OrderCreate) (order_id : String) (now : String)
    (orders : Store) : Order × Store :=
  let doc : Order :=
    { id := order_id
      status := "created"
      created_at := now
      customer_email := payload.customer_email
      product_id := payload.product_id
      quantity := payload.quantity }
  (doc, storeSet orders order_id doc)

/-- The result of the get-order handler: either the full record, or the
`HTTPException` it raises (status code and detail message). -/
inductive GetResult where
  | ok (doc : Order)
  | notFound (status_code : Nat) (detail : String)
deriving DecidableEq, Repr

/-- The handler body of `GET /orders/{order_id}` (`get_order`, app.py lines
84-92): `ORDERS.get(order_id)`; on a missing result raise
`HTTPException(status_code=404, detail="Order not found")`, otherwise return
the record.  (The Python test `if not doc` also fires on an empty dict, but
every stored value is a non-empty dict, so absence is the only falsy case.)
The store is returned unchanged alongside the response. -/
def get_order (order_id : String) (orders : Store) : GetResult × Store :=
  match storeGet orders order_id with
  | none => (.notFound 404 "Order not found", orders)
  | some doc => (.ok doc, orders)

/-- The `POST /orders` endpoint as the caller sees it: pydantic validates the
raw body first (a failure is a 422 response and the handler body never runs),
then `create_order` runs on the validated payload. -/
def postOrdersEndpoint (raw : RawOrderCreate) (order_id : String) (now : String)
    (orders : Store) : Except ValidationError Order × Store :=
  match OrderCreate.validate raw with
  | .error e => (.error e, orders)
  | .ok payload =>
    let r := create_order payload order_id now orders
    (.ok r.1, r.2)

/-- The health response body (app.py line 62). -/
structure HealthBody where
  ok : Bool
  service : String
  version : String
deriving DecidableEq, Repr

/-- The handler body of `GET /` (`health`, app.py lines 59-62): return the
fixed descriptor; FastAPI serves it with status 200.  The store is returned
unchanged alongside the response. -/
def health (orders : Store) : (Nat × HealthBody) × Store :=
  ((200, { ok := true, service := "orders-api", version := "1.0" }), orders)

/-- The handler body of the flag-gated `GET /orders/create`
(`create_order_get`, app.py lines 98-120): same construction as
`create_order`, but the inputs arrive as query parameters. -/
def create_order_get (customer_email : String) (product_id : String)
    (quantity : Int) (order_id : String) (now : String)
    (orders : Store) : Order × Store :=
  let doc : Order :=
    { id := order_id
      status := "created"
      created_at := now
      customer_email := customer_email
      product_id := product_id
      quantity := quantity }
  (doc, storeSet orders order_id doc)

/-- Query-parameter validation of the GET-based create (app.py lines
100-102): `customer_email` and `product_id` are required (`Query(...)`),
`quantity` has constraint `ge=1` and default `1` (`Query(1, ge=1)`). -/
def validateGetCreateQuery (r : RawOrderCreate) :
    Except ValidationError (String × String × Int) :=
  match r.customer_email with
  | none => .error (.missingField "customer_email")
  | some ce =>
    match r.product_id with
    | none => .error (.missingField "product_id")
    | some pid =>
      match r.quantity with
      | none => .ok (ce, pid, 1)
      | some q => if 1 ≤ q then .ok (ce, pid, q) else .error (.constraintViolation "quantity")

/-- The flag-gated `GET /orders/create` endpoint as the caller sees it:
query-parameter validation first, then the handler body. -/
def getCreateEndpoint (raw : RawOrderCreate) (order_id : String) (now : String)
    (orders : Store) : Except ValidationError Order × Store :=
  match validateGetCreateQuery raw with
  | .error e => (.error e, orders)
  | .ok (ce, pid, q) =>
    let r := create_order_get ce pid q order_id now orders
    (.ok r.1, r.2)

-- The route table and dispatch.

/-- HTTP methods used by the service. -/
inductive Method where
  | get
  | post
deriving DecidableEq, Repr

/-- Tags naming the four handlers of the service. -/
inductive HandlerTag where
  | healthHandler
  | createOrderHandler
  | getOrderHandler
  | createOrderGetHandler
deriving DecidableEq, Repr

/-- A route pattern: a literal path, or the parameterised
`/orders/{order_id}`. -/
inductive RoutePattern where
  | literal (path : String)
  | ordersParam
deriving DecidableEq, Repr

/-- Drop a literal prefix from a character list, or fail. -/
def dropPrefixChars : List Char → List Char → Option (List Char)
  | [], cs => some cs
  | _ :: _, [] => none
  | p :: ps, c :: cs => if c = p then dropPrefixChars ps cs else none

/-- Whether a pattern matches a request path; on a match, the captured path
parameters.  `/orders/{order_id}` matches `/orders/` followed by one
non-empty segment containing no further slash. -/
def RoutePattern.matchPath : RoutePattern → String → Option (List String)
  | .literal p, path => if path = p then some [] else none
  | .ordersParam, path =>
    match dropPrefixChars "/orders/".toList path.toList with
    | none => none
    | some rest =>
      if rest ≠ [] ∧ '/' ∉ rest then some [String.mk rest] else none

/-- A registered route: method, pattern, handler. -/
structure Route where
  method : Method
  pattern : RoutePattern
  handler : HandlerTag
deriving DecidableEq, Repr

/-- The FastAPI route table of `app.py` in registration order: `GET /`
(line 59), `POST /orders` (line 66), `GET /orders/{order_id}` (line 84),
and — only under `if ENABLE_GET_CREATE:` — `GET /orders/create` (line 98). -/
def appRoutes (enableGetCreate : Bool) : List Route :=
  [ { method := .get, pattern := .literal "/", handler := .healthHandler },
    { method := .post, pattern := .literal "/orders", handler := .createOrderHandler },
    { method := .get, pattern := .ordersParam, handler := .getOrderHandler } ]
  ++ (if enableGetCreate then
        [ { method := .get, pattern := .literal "/orders/create",
            handler := .createOrderGetHandler } ]
      else [])

/-- FastAPI dispatch: the first registered route whose method and pattern
match the request wins. -/
def dispatch : List Route → Method → String → Option (HandlerTag × List String)
  | [], _, _ => none
  | r :: rest, m, path =>
    if r.method = m then
      match r.pattern.matchPath path with
      | some ps => some (r.handler, ps)
      | none => dispatch rest m path
    else dispatch rest m path

/-- The process environment at startup: variable name to value. -/
abbrev Env := String → Option String

/-- Line 16 of app.py: `ENABLE_GET_CREATE = True`.  The comment above it
reads "Feature flag from environment" and `os` is imported, but the flag is
assigned the literal `True`; no environment variable is ever read. -/
def ENABLE_GET_CREATE : Bool := true

/-- The route table the module builds at import time, as a function of the
process environment.  As in the source, the environment is never consulted:
the table is `appRoutes ENABLE_GET_CREATE` for every environment. -/
def appRoutesAtStartup (_env : Env) : List Route := appRoutes ENABLE_GET_CREATE

-- A sequence of creates within one process lifetime.

/-- One successful create operation: via the POST handler with a validated
payload, or via the flag-gated GET handler with validated query values. -/
inductive CreateCall where
  | post (payload : OrderCreate)
  | viaGet (customer_email : String) (product_id : String) (quantity : Int)
deriving DecidableEq, Repr

/-- Run one create call with the given fresh identifier and timestamp. -/
def applyCreate : CreateCall → String → String → Store → Order × Store
  | .post payload, order_id, now, s => create_order payload order_id now s
  | .viaGet ce pid q, order_id, now, s => create_order_get ce pid q order_id now s

/-- Run a sequence of create calls, each paired with the fresh identifier
and timestamp its run obtains; returns the records in order and the final
store. -/
def runCreates : List (CreateCall × String × String) → Store → List Order × Store
  | [], s => ([], s)
  | (c, order_id, now) :: rest, s =>
    let r := applyCreate c order_id now s
    let q := runCreates rest r.2
    (r.1 :: q.1, q.2)

/-- A concrete order used to instantiate universally quantified theorems. -/
def sampleOrder : Order :=
  { id := "id-0"
    status := "created"
    created_at := "t0"
    customer_email := "e"
    product_id := "p"
    quantity := 1 }

/-- A concrete one-entry store used to instantiate universally quantified
theorems. -/
def sampleStore : Store := [("id-0", sampleOrder)]

-- Lemmas about the dict embedding.

/-- After `storeSet s k v`, looking up `k` yields `v` and looking up any
other key is unchanged. -/
theorem storeGet_storeSet (s : Store) (k : String) (v : Order) (k' : String) :
    storeGet (storeSet s k v) k' = if k' = k then some v else storeGet s k' := by
  induction s with
  | nil =>
    by_cases h : k' = k
    · simp [storeSet, storeGet, h]
    · simp [storeSet, storeGet, h, Ne.symm h]
  | cons p t ih =>
    by_cases hpk : p.1 = k
    · by_cases h : k' = k
      · simp [storeSet, storeGet, hpk, h]
      · have hp : p.1 ≠ k' := fun hc => h (hc.symm.trans hpk)
        simp [storeSet, storeGet, hpk, h, hp, Ne.symm h]
    · by_cases hp : p.1 = k'
      · have h : ¬k' = k := fun hc => hpk (hp.trans hc)
        simp [storeSet, storeGet, hpk, hp, h]
      · simp [storeSet, storeGet, hpk, hp, ih]

/-- Setting a key that is absent from the store appends one entry at the end
and touches nothing else. -/
theorem storeSet_of_storeGet_eq_none (s : Store) (k : String) (v : Order)
    (h : storeGet s k = none) : storeSet s k v = s ++ [(k, v)] := by
  induction s with
  | nil => simp [storeSet]
  | cons p t ih =>
    by_cases hp : p.1 = k
    · simp [storeGet, hp] at h
    · simp only [storeGet, hp, if_false] at h
      simp [storeSet, hp, ih h]

/-- A key has no value exactly when it is not among the keys of the store. -/
theorem storeGet_eq_none_iff (s : Store) (k : String) :
    storeGet s k = none ↔ k ∉ s.map Prod.fst := by
  induction s with
  | nil => simp [storeGet]
  | cons p t ih =>
    by_cases hp : p.1 = k
    · simp [storeGet, hp]
    · simp [storeGet, hp, ih, Ne.symm hp]

/-- Either create handler stores its record under the supplied fresh id. -/
theorem applyCreate_snd (c : CreateCall) (order_id now : String) (s : Store) :
    (applyCreate c order_id now s).2
      = storeSet s order_id (applyCreate c order_id now s).1 := by
  cases c <;> rfl

/-- Either create handler returns a record carrying the supplied fresh id. -/
theorem applyCreate_fst_id (c : CreateCall) (order_id now : String) (s : Store) :
    (applyCreate c order_id now s).1.id = order_id := by
  cases c <;> rfl

/-- The records a sequence of creates returns carry exactly the supplied
fresh identifiers, in order. -/
theorem runCreates_ids (calls : List (CreateCall × String × String)) (s : Store) :
    (runCreates calls s).1.map Order.id = calls.map (fun c => c.2.1) := by
  induction calls generalizing s with
  | nil => rfl
  | cons c rest ih =>
    obtain ⟨call, order_id, now⟩ := c
    simp [runCreates, ih, applyCreate_fst_id]

/-- When the supplied identifiers avoid the existing keys and each other,
a sequence of creates appends exactly those identifiers to the key list. -/
theorem runCreates_keys (calls : List (CreateCall × String × String)) (s : Store)
    (h : (s.map Prod.fst ++ calls.map (fun c => c.2.1)).Nodup) :
    (runCreates calls s).2.map Prod.fst
      = s.map Prod.fst ++ calls.map (fun c => c.2.1) := by
  induction calls generalizing s with
  | nil => simp [runCreates]
  | cons c rest ih =>
    obtain ⟨call, order_id, now⟩ := c
    have hid : order_id ∉ s.map Prod.fst := by
      intro hmem
      rcases List.nodup_append.mp h with ⟨_, _, hdisj⟩
      exact hdisj hmem (by simp)
    have hget : storeGet s order_id = none :=
      (storeGet_eq_none_iff s order_id).mpr hid
    have hstep : (applyCreate call order_id now s).2
        = s ++ [(order_id, (applyCreate call order_id now s).1)] := by
      rw [applyCreate_snd]
      exact storeSet_of_storeGet_eq_none s order_id _ hget
    have hkeys : (applyCreate call order_id now s).2.map Prod.fst
        = s.map Prod.fst ++ [order_id] := by
      simp [hstep]
    have h' : ((applyCreate call order_id now s).2.map Prod.fst
        ++ rest.map (fun c => c.2.1)).Nodup := by
      rw [hkeys, List.append_assoc, List.singleton_append]
      exact h
    have hrec := ih (applyCreate call order_id now s).2 h'
    show ((runCreates rest (applyCreate call order_id now s).2).2).map Prod.fst = _
    rw [hrec, hkeys, List.append_assoc, List.singleton_append]
    rfl

-- Claim theorems.

/-- C1: for every valid create request (customer_email and product_id
present, quantity an integer ≥ 1 or omitted), the POST create endpoint
returns a record whose status is "created", whose quantity equals the input
quantity (or 1 when omitted) and whose customer_email and product_id equal
the inputs, and it stores that same record under the fresh identifier. -/
theorem create_order_valid_request (ce pid : String) (q : Option Int)
    (hq : ∀ x, q = some x → 1 ≤ x) (order_id now : String) (s : Store) :
    ∃ doc : Order,
      postOrdersEndpoint ⟨some ce, some pid, q⟩ order_id now s
        = (.ok doc, storeSet s order_id doc) ∧
      doc.status = "created" ∧
      doc.quantity = q.getD 1 ∧
      doc.customer_email = ce ∧
      doc.product_id = pid ∧
      storeGet (postOrdersEndpoint ⟨some ce, some pid, q⟩ order_id now s).2 order_id
        = some doc := by
  cases q with
  | none =>
    refine ⟨{ id := order_id, status := "created", created_at := now,
              customer_email := ce, product_id := pid, quantity := 1 },
            rfl, rfl, rfl, rfl, rfl, ?_⟩
    simp [postOrdersEndpoint, OrderCreate.validate, create_order, storeGet_storeSet]
  | some x =>
    have hx : 1 ≤ x := hq x rfl
    refine ⟨{ id := order_id, status := "created", created_at := now,
              customer_email := ce, product_id := pid, quantity := x },
            ?_, rfl, rfl, rfl, rfl, ?_⟩
    · simp [postOrdersEndpoint, OrderCreate.validate, hx, create_order]
    · simp [postOrdersEndpoint, OrderCreate.validate, hx, create_order,
        storeGet_storeSet]

/-- Witness for C1 at a concrete valid request. -/
theorem create_order_valid_request_witness :
    (∀ x : Int, (some 2 : Option Int) = some x → 1 ≤ x) ∧
    ∃ doc : Order,
      postOrdersEndpoint ⟨some "a@b.com", some "sku_1", some 2⟩ "id-1" "t0" []
        = (.ok doc, storeSet [] "id-1" doc) ∧
      doc.status = "created" ∧
      doc.quantity = (some 2 : Option Int).getD 1 ∧
      doc.customer_email = "a@b.com" ∧
      doc.product_id = "sku_1" ∧
      storeGet (postOrdersEndpoint ⟨some "a@b.com", some "sku_1", some 2⟩ "id-1" "t0" []).2 "id-1"
        = some doc := by
  have h : ∀ x : Int, (some 2 : Option Int) = some x → 1 ≤ x := by
    intro x hx
    injection hx with h2
    omega
  exact ⟨h, create_order_valid_request "a@b.com" "sku_1" (some 2) h "id-1" "t0" []⟩

/-- C2: immediately after a create, get-order with the identifier the create
returned succeeds and returns, field for field, the very record the create
returned, leaving the store as the create left it. -/
theorem get_after_create (payload : OrderCreate) (order_id now : String) (s : Store) :
    get_order order_id (create_order payload order_id now s).2
      = (.ok (create_order payload order_id now s).1,
         (create_order payload order_id now s).2) := by
  simp [create_order, get_order, storeGet_storeSet]

/-- C3: for every identifier that is not a key of the store, get-order fails
with exactly `HTTPException(404, "Order not found")` and leaves the store
unchanged; it never returns a success and never diverges. -/
theorem get_order_not_found (order_id : String) (s : Store)
    (h : storeGet s order_id = none) :
    get_order order_id s = (.notFound 404 "Order not found", s) := by
  simp [get_order, h]

/-- Witness for C3 at a concrete unused identifier. -/
theorem get_order_not_found_witness :
    storeGet [] "does-not-exist" = none ∧
    get_order "does-not-exist" [] = (.notFound 404 "Order not found", []) :=
  ⟨rfl, get_order_not_found "does-not-exist" [] rfl⟩

/-- C4: a create request with a missing required field or a quantity ≤ 0 is
rejected with a validation error, and the store is returned exactly as it
was: nothing is inserted on the error path. -/
theorem invalid_create_rejected (raw : RawOrderCreate)
    (order_id now : String) (s : Store)
    (h : raw.customer_email = none ∨ raw.product_id = none ∨
         ∃ q, raw.quantity = some q ∧ q ≤ 0) :
    ∃ e : ValidationError, postOrdersEndpoint raw order_id now s = (.error e, s) := by
  obtain ⟨a, b, c⟩ := raw
  rcases h with h | h | ⟨q, hq, hq0⟩
  · cases h
    exact ⟨_, rfl⟩
  · cases h
    cases a with
    | none => exact ⟨_, rfl⟩
    | some ce => exact ⟨_, rfl⟩
  · cases hq
    cases a with
    | none => exact ⟨_, rfl⟩
    | some ce =>
      cases b with
      | none => exact ⟨_, rfl⟩
      | some pid =>
        have hlt : ¬(1 : Int) ≤ q := by omega
        refine ⟨.constraintViolation "quantity", ?_⟩
        simp [postOrdersEndpoint, OrderCreate.validate, hlt]

/-- Witness for C4 at a concrete request with quantity 0. -/
theorem invalid_create_rejected_witness :
    ((⟨some "a@b.com", some "sku_1", some 0⟩ : RawOrderCreate).customer_email = none ∨
     (⟨some "a@b.com", some "sku_1", some 0⟩ : RawOrderCreate).product_id = none ∨
     ∃ q, (⟨some "a@b.com", some "sku_1", some 0⟩ : RawOrderCreate).quantity = some q ∧ q ≤ 0) ∧
    ∃ e : ValidationError,
      postOrdersEndpoint ⟨some "a@b.com", some "sku_1", some 0⟩ "id-1" "t0" []
        = (.error e, []) := by
  have h : (⟨some "a@b.com", some "sku_1", some 0⟩ : RawOrderCreate).customer_email = none ∨
      (⟨some "a@b.com", some "sku_1", some 0⟩ : RawOrderCreate).product_id = none ∨
      ∃ q, (⟨some "a@b.com", some "sku_1", some 0⟩ : RawOrderCreate).quantity = some q ∧ q ≤ 0 :=
    Or.inr (Or.inr ⟨0, rfl, le_refl 0⟩)
  exact ⟨h, invalid_create_rejected _ "id-1" "t0" [] h⟩

/-- C8: the health handler returns the fixed descriptor
`{ok: true, service: "orders-api", version: "1.0"}` with status 200 and
leaves the store unchanged, whatever the prior state. -/
theorem health_fixed (s : Store) :
    health s = ((200, { ok := true, service := "orders-api", version := "1.0" }), s) :=
  rfl

/-- C5: across a sequence of successful creates through either endpoint,
with the fresh identifiers the uuid source supplies being pairwise distinct
(the uniqueness contract of `uuid4`), the returned identifiers are exactly
those supplied and pairwise distinct, the store's keys stay pairwise
distinct, and no create overwrites an existing order: the final store holds
one entry per create. -/
theorem creates_pairwise_distinct (calls : List (CreateCall × String × String))
    (h : (calls.map (fun c => c.2.1)).Nodup) :
    (runCreates calls []).1.map Order.id = calls.map (fun c => c.2.1) ∧
    ((runCreates calls []).1.map Order.id).Nodup ∧
    ((runCreates calls []).2.map Prod.fst).Nodup ∧
    (runCreates calls []).2.length = calls.length := by
  have hids := runCreates_ids calls []
  have hkeys := runCreates_keys calls [] (by simpa using h)
  refine ⟨hids, by rw [hids]; exact h, by rw [hkeys]; simpa using h, ?_⟩
  have := congrArg List.length hkeys
  simpa using this

/-- Witness for C5 at a concrete two-element sequence of creates. -/
theorem creates_pairwise_distinct_witness :
    (([(CreateCall.post ⟨"a@b.com", "sku_1", 1⟩, "id-1", "t1"),
       (CreateCall.viaGet "c@d.com" "sku_2" 2, "id-2", "t2")].map
         (fun c => c.2.1)).Nodup) ∧
    ((runCreates [(CreateCall.post ⟨"a@b.com", "sku_1", 1⟩, "id-1", "t1"),
                  (CreateCall.viaGet "c@d.com" "sku_2" 2, "id-2", "t2")] []).1.map Order.id
        = [(CreateCall.post ⟨"a@b.com", "sku_1", 1⟩, "id-1", "t1"),
           (CreateCall.viaGet "c@d.com" "sku_2" 2, "id-2", "t2")].map (fun c => c.2.1) ∧
     ((runCreates [(CreateCall.post ⟨"a@b.com", "sku_1", 1⟩, "id-1", "t1"),
                   (CreateCall.viaGet "c@d.com" "sku_2" 2, "id-2", "t2")] []).1.map Order.id).Nodup ∧
     ((runCreates [(CreateCall.post ⟨"a@b.com", "sku_1", 1⟩, "id-1", "t1"),
                   (CreateCall.viaGet "c@d.com" "sku_2" 2, "id-2", "t2")] []).2.map Prod.fst).Nodup ∧
     (runCreates [(CreateCall.post ⟨"a@b.com", "sku_1", 1⟩, "id-1", "t1"),
                  (CreateCall.viaGet "c@d.com" "sku_2" 2, "id-2", "t2")] []).2.length = 2) := by
  have h : (([(CreateCall.post ⟨"a@b.com", "sku_1", 1⟩, "id-1", "t1"),
      (CreateCall.viaGet "c@d.com" "sku_2" 2, "id-2", "t2")].map
        (fun c => c.2.1)).Nodup) := by decide
  exact ⟨h, creates_pairwise_distinct _ h⟩

/-- C6: the flag-gated GET-based create has the same semantics as the
POST-based create: the handler bodies agree exactly when given the same
inputs, fresh identifier, timestamp and store, and the full endpoints
(validation included) agree on every raw request. -/
theorem get_create_equiv_post (ce pid : String) (q : Int)
    (raw : RawOrderCreate) (order_id now : String) (s : Store) :
    create_order_get ce pid q order_id now s
      = create_order ⟨ce, pid, q⟩ order_id now s ∧
    getCreateEndpoint raw order_id now s = postOrdersEndpoint raw order_id now s := by
  refine ⟨rfl, ?_⟩
  obtain ⟨a, b, c⟩ := raw
  cases a with
  | none => rfl
  | some ce' =>
    cases b with
    | none => rfl
    | some pid' =>
      cases c with
      | none => rfl
      | some q' =>
        by_cases hq : 1 ≤ q'
        · simp [getCreateEndpoint, postOrdersEndpoint, validateGetCreateQuery,
            OrderCreate.validate, create_order, create_order_get, hq]
        · simp [getCreateEndpoint, postOrdersEndpoint, validateGetCreateQuery,
            OrderCreate.validate, hq]

/-- C7: the route table never depends on the process environment — line 16
assigns the literal `True` to `ENABLE_GET_CREATE` and never reads an
environment variable (despite the source's own comment "Feature flag from
environment", its disabled-branch log message and the handler docstring) —
so `GET /orders/create` is registered under every environment, including one
where the variable is unset or `"0"`. -/
theorem enable_get_create_ignores_env (env : Env) :
    appRoutesAtStartup env = appRoutes true ∧
    ({ method := .get, pattern := .literal "/orders/create",
       handler := .createOrderGetHandler } : Route) ∈ appRoutesAtStartup env := by
  refine ⟨rfl, ?_⟩
  simp [appRoutesAtStartup, appRoutes, ENABLE_GET_CREATE]

/-- C9: no operation mutates an existing order: health and get-order return
the store untouched, and either create handler, run with a fresh identifier
(one that is not yet a key), changes the store only by appending its single
new entry, every prior entry kept in place with all fields unchanged. -/
theorem ops_preserve_existing_orders (s : Store) (payload : OrderCreate)
    (ce pid : String) (q : Int) (order_id now oid : String)
    (h : storeGet s order_id = none) :
    (health s).2 = s ∧
    (get_order oid s).2 = s ∧
    (create_order payload order_id now s).2
      = s ++ [(order_id, (create_order payload order_id now s).1)] ∧
    (create_order_get ce pid q order_id now s).2
      = s ++ [(order_id, (create_order_get ce pid q order_id now s).1)] := by
  refine ⟨rfl, ?_, ?_, ?_⟩
  · cases hs : storeGet s oid <;> simp [get_order, hs]
  · exact storeSet_of_storeGet_eq_none s order_id _ h
  · exact storeSet_of_storeGet_eq_none s order_id _ h

/-- Witness for C9 at a concrete one-entry store and a fresh identifier. -/
theorem ops_preserve_existing_orders_witness :
    storeGet sampleStore "id-1" = none ∧
    ((health sampleStore).2 = sampleStore ∧
     (get_order "id-0" sampleStore).2 = sampleStore ∧
     (create_order ⟨"a@b.com", "sku_1", 2⟩ "id-1" "t1" sampleStore).2
       = sampleStore
         ++ [("id-1", (create_order ⟨"a@b.com", "sku_1", 2⟩ "id-1" "t1" sampleStore).1)] ∧
     (create_order_get "a@b.com" "sku_1" 2 "id-1" "t1" sampleStore).2
       = sampleStore
         ++ [("id-1", (create_order_get "a@b.com" "sku_1" 2 "id-1" "t1" sampleStore).1)]) := by
  have h : storeGet sampleStore "id-1" = none := by decide
  exact ⟨h, ops_preserve_existing_orders sampleStore ⟨"a@b.com", "sku_1", 2⟩
    "a@b.com" "sku_1" 2 "id-1" "t1" "id-0" h⟩

/-- C10: because `GET /orders/{order_id}` is registered before
`GET /orders/create` and dispatch takes the first match, a GET request to
`/orders/create` is dispatched to the get-order handler with
`order_id = "create"`, not to the alternate create handler, and yields the
404 "Order not found" whenever no order has identifier "create". -/
theorem orders_create_route_shadowed (s : Store)
    (h : storeGet s "create" = none) :
    dispatch (appRoutes ENABLE_GET_CREATE) .get "/orders/create"
      = some (.getOrderHandler, ["create"]) ∧
    get_order "create" s = (.notFound 404 "Order not found", s) := by
  refine ⟨by decide, ?_⟩
  simp [get_order, h]

/-- Witness for C10 at the empty store. -/
theorem orders_create_route_shadowed_witness :
    storeGet [] "create" = none ∧
    (dispatch (appRoutes ENABLE_GET_CREATE) .get "/orders/create"
       = some (.getOrderHandler, ["create"]) ∧
     get_order "create" [] = (.notFound 404 "Order not found", [])) :=
  ⟨rfl, orders_create_route_shadowed [] rfl⟩
